import Mathlib

/-
  Shallow embedding of the compute-node manager (nova/compute/manager.py):
  the instance-lifecycle orchestration engine.  External collaborators
  (conductor record store, network service, volume service, hypervisor
  driver, scheduler) are modelled through explicit environment records
  describing the outcome of each call, and every workflow is a pure
  function from such an environment and an instance record to a result
  carrying the raised exception (if any), the final instance record and a
  trace of externally visible actions.
-/

namespace Nova

/-- Coarse instance lifecycle stage (nova.compute.vm_states). -/
inductive VmState
  | building
  | active
  | stopped
  | paused
  | suspended
  | rescued
  | resized
  | softDeleted
  | deleted
  | error
deriving DecidableEq

/-- Fine-grained in-progress workflow step (nova.compute.task_states). -/
inductive TaskState
  | scheduling
  | networking
  | blockDeviceMapping
  | spawning
  | deleting
  | resizePrep
  | resizeMigrating
  | resizeMigrated
  | imageUploading
deriving DecidableEq

/-- Hypervisor-observed run state (nova.compute.power_state). -/
inductive PowerState
  | nostate
  | running
  | paused
  | shutdown
  | crashed
  | suspended
deriving DecidableEq

/-- Exceptions raised across the workflows of manager.py.  The
unexpectedTaskState constructor carries the actual task state reported by
the record store precondition failure, as UnexpectedTaskStateError does in
its kwargs. -/
inductive Exc
  | unexpectedTaskState (actual : Option TaskState)
  | instanceNotFound
  | instanceExists
  | imageTooLarge
  | instanceTerminationFailure
  | insufficientResources
  | diskNotFound
  | volumeNotFound
  | other (code : Nat)
deriving DecidableEq

/-- Test for the precondition-race exception class. -/
def Exc.isUnexpectedTaskState : Exc → Bool
  | .unexpectedTaskState _ => true
  | _ => false

/-- Retry metadata carried in filter_properties, as used by _reschedule:
the attempt counter and the recorded failure of the previous attempt. -/
structure RetryInfo where
  num_attempts : Nat
  exc : Option Exc
deriving DecidableEq

/-- The authoritative instance record, restricted to the fields the
verified workflows read or write. -/
structure Instance where
  uuid : Nat
  vm_state : VmState
  task_state : Option TaskState
  power_state : PowerState
  host : Nat
  deleted_at : Option Nat
deriving DecidableEq

/-- Block device mapping row: volume link and the delete_on_termination
flag used by _cleanup_volumes. -/
structure Bdm where
  id : Nat
  volume_id : Option Nat
  delete_on_termination : Bool
deriving DecidableEq

/-- Backup image row returned by the image service, sorted newest-first on
created_at by _rotate_backups. -/
structure BackupImage where
  id : Nat
  created_at : Nat
deriving DecidableEq

/-- Externally visible actions emitted by the workflows.  Completion
actions are recorded only when the corresponding call succeeds. -/
inductive Action
  | claimAcquired
  | claimReverted
  | allocateNetwork
  | deallocateNetwork
  | addInstanceFault (e : Exc)
  | logOriginal (e : Exc)
  | schedulerRunInstance (numAttempts : Nat) (recorded : Option Exc)
  | setInstanceError (uuid : Nat)
  | computeStop (uuid : Nat)
  | writePowerState (uuid : Nat) (ps : PowerState)
  | logWarn
  | quotaRollback
  | migrateDisk
  | finishResizeCast
  | infoCacheDelete
  | driverDestroy
  | terminateVolumeConnection (volId : Nat)
  | volumeDelete (volId : Nat)
  | instanceDestroy
  | bdmDestroy
  | imageDelete (imgId : Nat)
deriving DecidableEq

/-- Result of running a workflow step: the exception that propagates (none
on success), the resulting instance record, and the trace of actions. -/
structure StepResult where
  raised : Option Exc
  inst : Instance
  trace : List Action
deriving DecidableEq

/-- Decorator reverts_task_state of manager.py.  On success the body
result passes through.  On UnexpectedTaskStateError the current task was
preempted, so the task state is deliberately not cleared and the exception
is re-raised.  On any other exception the task_state is set to null
before the exception propagates (the source swallows a failure of that
very update; the record-store write is modelled as succeeding). -/
def reverts_task_state (f : Instance → StepResult) (inst : Instance) : StepResult :=
  let r := f inst
  match r.raised with
  | none => r
  | some (Exc.unexpectedTaskState _) => r
  | some _ => { r with inst := { r.inst with task_state := none } }

/-- Decision part of _sync_instance_power_state: given the (re-queried)
vm_state and the hypervisor-observed power state, the corrective actions
taken after the power_state write-through. -/
def power_state_decision (uuid : Nat) (vm : VmState) (p : PowerState) : List Action :=
  match vm with
  | .building | .rescued | .resized | .suspended | .paused | .error => []
  | .active =>
    match p with
    | .shutdown | .crashed => [Action.logWarn, Action.computeStop uuid]
    | .suspended => [Action.logWarn, Action.computeStop uuid]
    | .paused => [Action.logWarn]
    | .nostate => [Action.logWarn]
    | _ => []
  | .stopped =>
    match p with
    | .nostate | .shutdown | .crashed => []
    | _ => [Action.logWarn, Action.computeStop uuid]
  | .softDeleted | .deleted =>
    match p with
    | .nostate | .shutdown => []
    | _ => [Action.logWarn]

/-- _sync_instance_power_state of manager.py, for one instance of one
reconciliation pass.  The record u is the freshly re-queried instance.
The instance is skipped when its host no longer matches this host or when
a task is pending; otherwise a differing power state is always written
through and the decision table is applied.  Exceptions from the stop call
are swallowed by the source, so only the invocation is recorded. -/
def sync_instance_power_state (selfHost : Nat) (u : Instance) (p : PowerState) : List Action :=
  if u.host ≠ selfHost then []
  else if u.task_state.isSome then []
  else
    (if p ≠ u.power_state then [Action.writePowerState u.uuid p] else []) ++
      power_state_decision u.uuid u.vm_state p

/-- Environment of one build (_run_instance and its reschedule path): the
outcome of each external call.  The resource claim is not part of src;
modelled from the spec: ResourceTracker.claim either succeeds or fails
with InsufficientResources (section 4.1 of the spec). -/
structure BuildEnv where
  checkExistsExc : Option Exc
  checkImageExc : Option Exc
  startBuildingExc : Option Exc
  claimOk : Bool
  allocNetworkExc : Option Exc
  bdmUpdateExc : Option Exc
  prepBlockDeviceExc : Option Exc
  spawnExc : Option Exc
  deallocExc : Option Exc
  filterRetry : Option RetryInfo
  requestSpec : Bool
  schedUpdateExc : Option Exc
  schedulerExc : Option Exc
deriving DecidableEq

/-- Result of _reschedule: the exception it raised (caught by its caller),
whether the build was re-submitted, the instance and the trace. -/
structure RescheduleResult where
  raised : Option Exc
  rescheduled : Bool
  inst : Instance
  trace : List Action
deriving DecidableEq

/-- _reschedule of manager.py (build variant).  Returns a falsy value when
retry metadata is absent or the request spec is empty.  Otherwise the task
state is reset to SCHEDULING, the original failure is stringified into the
retry metadata, and the scheduler rpc is invoked with the retry metadata
as it stands (num_attempts is passed through unchanged). -/
def reschedule_run_instance (env : BuildEnv) (inst : Instance) (origExc : Exc) :
    RescheduleResult :=
  match env.filterRetry with
  | none => ⟨none, false, inst, []⟩
  | some retry =>
    if !env.requestSpec then ⟨none, false, inst, []⟩
    else
      match env.schedUpdateExc with
      | some u => ⟨some u, false, inst, []⟩
      | none =>
        let inst := { inst with task_state := some TaskState.scheduling }
        let acts := [Action.schedulerRunInstance retry.num_attempts (some origExc)]
        match env.schedulerExc with
        | some s => ⟨some s, false, inst, acts⟩
        | none => ⟨none, true, inst, acts⟩

/-- _reschedule_or_reraise of manager.py.  Records an instance fault, then
deallocates the network (a deallocation failure logs the original error
and propagates the deallocation failure itself, with no retry attempted).
Any exception from _reschedule is caught and treated as not rescheduled.
When rescheduled, the original build error is logged and nothing raises;
otherwise the original exception is re-raised. -/
def reschedule_or_reraise (env : BuildEnv) (inst : Instance) (origExc : Exc) : StepResult :=
  let t0 := [Action.addInstanceFault origExc]
  match env.deallocExc with
  | some d => ⟨some d, inst, t0 ++ [Action.logOriginal origExc]⟩
  | none =>
    let t1 := t0 ++ [Action.deallocateNetwork]
    let r := reschedule_run_instance env inst origExc
    if r.raised.isNone && r.rescheduled then
      ⟨none, r.inst, t1 ++ r.trace ++ [Action.logOriginal origExc]⟩
    else
      ⟨some origExc, r.inst, t1 ++ r.trace⟩

/-- Claimed region of _run_instance: the body of the with rt.instance_claim
block.  On entry failure the claim raises before any body action; on a
body exception the claim is reverted (spec section 4.1) before the
exception leaves the with block.  _allocate_network first moves the task
state to NETWORKING, _prep_block_device runs under BLOCK_DEVICE_MAPPING,
and _spawn moves to SPAWNING and, on success, to ACTIVE with a null task
state and a refreshed power state. -/
def run_instance_claimed (env : BuildEnv) (inst : Instance) : StepResult :=
  if !env.claimOk then ⟨some Exc.insufficientResources, inst, []⟩
  else
    let t0 := [Action.claimAcquired]
    let i1 := { inst with vm_state := VmState.building,
                          task_state := some TaskState.networking }
    match env.allocNetworkExc with
    | some e => ⟨some e, i1, t0 ++ [Action.claimReverted]⟩
    | none =>
      let t1 := t0 ++ [Action.allocateNetwork]
      match env.bdmUpdateExc with
      | some e => ⟨some e, i1, t1 ++ [Action.claimReverted]⟩
      | none =>
        let i2 := { i1 with task_state := some TaskState.blockDeviceMapping }
        match env.prepBlockDeviceExc with
        | some e => ⟨some e, i2, t1 ++ [Action.claimReverted]⟩
        | none =>
          let i3 := { i2 with task_state := some TaskState.spawning }
          match env.spawnExc with
          | some e => ⟨some e, i3, t1 ++ [Action.claimReverted]⟩
          | none =>
            ⟨none, { i3 with vm_state := VmState.active, task_state := none,
                             power_state := PowerState.running }, t1⟩

/-- Exception produced by the claimed region, as a function of the
environment alone (the region raises independently of the record). -/
def claimed_region_exc (env : BuildEnv) : Option Exc :=
  if !env.claimOk then some Exc.insufficientResources
  else
    match env.allocNetworkExc with
    | some e => some e
    | none =>
      match env.bdmUpdateExc with
      | some e => some e
      | none =>
        match env.prepBlockDeviceExc with
        | some e => some e
        | none => env.spawnExc

/-- _run_instance of manager.py.  The outer try runs the pre-claim checks
and the claimed region.  InstanceNotFound from the claimed region
deallocates the network (swallowing a deallocation failure) and
re-raises; an unexpected-task-state whose actual state is deleting is
swallowed (the instance was deleted during spawn); any other exception
goes to _reschedule_or_reraise.  Any exception leaving the outer try sets
the instance to ERROR and propagates. -/
def run_instance_inner (env : BuildEnv) (inst : Instance) : StepResult :=
  let body : StepResult :=
    match env.checkExistsExc with
    | some e => ⟨some e, inst, []⟩
    | none =>
      match env.checkImageExc with
      | some e => ⟨some e, inst, []⟩
      | none =>
        match env.startBuildingExc with
        | some e => ⟨some e, inst, []⟩
        | none =>
          let i0 := { inst with vm_state := VmState.building, task_state := none }
          let r := run_instance_claimed env i0
          match r.raised with
          | none => ⟨none, r.inst, r.trace⟩
          | some Exc.instanceNotFound =>
            let dt := match env.deallocExc with
                      | none => [Action.deallocateNetwork]
                      | some _ => [Action.logWarn]
            ⟨some Exc.instanceNotFound, r.inst, r.trace ++ dt⟩
          | some (Exc.unexpectedTaskState actual) =>
            if actual = some TaskState.deleting then
              ⟨none, r.inst, r.trace⟩
            else
              ⟨some (Exc.unexpectedTaskState actual), r.inst, r.trace⟩
          | some e =>
            let rr := reschedule_or_reraise env r.inst e
            ⟨rr.raised, rr.inst, r.trace ++ rr.trace⟩
  match body.raised with
  | none => body
  | some e =>
    ⟨some e, { body.inst with vm_state := VmState.error },
      body.trace ++ [Action.setInstanceError body.inst.uuid]⟩

/-- run_instance entry point: _run_instance under the reverts_task_state
decorator.  The remaining decorators (fault wrapper, event wrapper,
exception notifier) re-raise the same exception unchanged and are not
modelled; the per-uuid lock is a no-op for a single workflow. -/
def run_instance (env : BuildEnv) (inst : Instance) : StepResult :=
  reverts_task_state (run_instance_inner env) inst

/-- Environment of one delete (terminate_instance / _delete_instance /
_shutdown_instance): outcome of each external call, the volume block
device mappings as fetched when the record still exists, and whether the
record is already gone from the store. -/
structure TermEnv where
  alreadyDeleted : Bool
  bdms : List Bdm
  deallocExc : Option Exc
  destroyExc : Option Exc
  volTermExc : Option Exc
  cleanupVolumesFails : Bool
deriving DecidableEq

/-- _shutdown_instance of manager.py: deallocate the network (a failure
there sets the instance to ERROR and re-raises), destroy the guest via
the driver, then release the volume connections, swallowing DiskNotFound
and VolumeNotFound. -/
def shutdown_instance (env : TermEnv) (inst : Instance) (bdms : List Bdm) : StepResult :=
  match env.deallocExc with
  | some e => ⟨some e, { inst with vm_state := VmState.error },
      [Action.setInstanceError inst.uuid]⟩
  | none =>
    let t0 := [Action.deallocateNetwork]
    match env.destroyExc with
    | some e => ⟨some e, inst, t0⟩
    | none =>
      let t1 := t0 ++ [Action.driverDestroy]
      match env.volTermExc with
      | some Exc.diskNotFound => ⟨none, inst, t1 ++ [Action.logWarn]⟩
      | some Exc.volumeNotFound => ⟨none, inst, t1 ++ [Action.logWarn]⟩
      | some e => ⟨some e, inst, t1⟩
      | none =>
        ⟨none, inst,
          t1 ++ (bdms.filterMap (fun b => b.volume_id)).map
            (fun v => Action.terminateVolumeConnection v)⟩

/-- _cleanup_volumes of manager.py: delete every attached volume whose
mapping carries delete_on_termination. -/
def cleanup_volumes (bdms : List Bdm) : List Action :=
  bdms.filterMap (fun b =>
    match b.volume_id with
    | some v => if b.delete_on_termination then some (Action.volumeDelete v) else none
    | none => none)

/-- _delete_instance of manager.py: drop the info cache, shut the instance
down, best-effort clean up volumes (failures are logged and ignored),
then mark the record DELETED with a null task state; on an already
destroyed record that final conditional-free update raises
InstanceNotFound.  On success the record is destroyed and the block
device mappings are deleted. -/
def delete_instance (env : TermEnv) (inst : Instance) (bdms : List Bdm) : StepResult :=
  let t0 := [Action.infoCacheDelete]
  let s := shutdown_instance env inst bdms
  match s.raised with
  | some e => ⟨some e, s.inst, t0 ++ s.trace⟩
  | none =>
    let t1 := t0 ++ s.trace ++
      (if env.cleanupVolumesFails then [Action.logWarn] else cleanup_volumes bdms)
    if env.alreadyDeleted then
      ⟨some Exc.instanceNotFound, s.inst, t1⟩
    else
      ⟨none, { s.inst with vm_state := VmState.deleted, task_state := none },
        t1 ++ [Action.instanceDestroy, Action.bdmDestroy]⟩

/-- Delete body as run by terminate_instance: when the record is already
gone its volume block device mappings were destroyed with it, so the
fetched list is empty. -/
def terminate_delete_result (env : TermEnv) (inst : Instance) : StepResult :=
  delete_instance env inst (if env.alreadyDeleted then [] else env.bdms)

/-- terminate_instance of manager.py.  Deliberately not decorated with
reverts_task_state, so a mid-delete failure leaves task_state as DELETING.
InstanceTerminationFailure sets the instance to ERROR; InstanceNotFound is
logged as a warning; both are swallowed. -/
def terminate_instance (env : TermEnv) (inst : Instance) : StepResult :=
  let r := terminate_delete_result env inst
  match r.raised with
  | none => r
  | some Exc.instanceTerminationFailure =>
    ⟨none, { r.inst with vm_state := VmState.error },
      r.trace ++ [Action.setInstanceError inst.uuid]⟩
  | some Exc.instanceNotFound => ⟨none, r.inst, r.trace ++ [Action.logWarn]⟩
  | some e => ⟨some e, r.inst, r.trace⟩

/-- Environment of one resize (resize_instance): outcome of each external
call and whether quota reservations are pending. -/
structure ResizeEnv where
  reservations : Bool
  nwInfoExc : Option Exc
  migratingUpdateExc : Option Exc
  taskMigratingExc : Option Exc
  migrateDiskExc : Option Exc
  termConnExc : Option Exc
  hostUpdateExc : Option Exc
deriving DecidableEq

/-- Body of resize_instance inside the _error_out_instance_on_exception
context: fetch network info, mark the migration migrating, move the task
state to RESIZE_MIGRATING (expecting RESIZE_PREP), migrate the disk and
power off, terminate volume connections, mark post-migrating, move the
record to the destination host with task state RESIZE_MIGRATED, and cast
finish_resize to the destination. -/
def resize_instance_body (env : ResizeEnv) (inst : Instance) (destHost : Nat) : StepResult :=
  match env.nwInfoExc with
  | some e => ⟨some e, inst, []⟩
  | none =>
    match env.migratingUpdateExc with
    | some e => ⟨some e, inst, []⟩
    | none =>
      match env.taskMigratingExc with
      | some e => ⟨some e, inst, []⟩
      | none =>
        let i1 := { inst with task_state := some TaskState.resizeMigrating }
        match env.migrateDiskExc with
        | some e => ⟨some e, i1, []⟩
        | none =>
          let t1 := [Action.migrateDisk]
          match env.termConnExc with
          | some e => ⟨some e, i1, t1⟩
          | none =>
            match env.hostUpdateExc with
            | some e => ⟨some e, i1, t1⟩
            | none =>
              let i2 := { i1 with host := destHost,
                                  task_state := some TaskState.resizeMigrated }
              ⟨none, i2, t1 ++ [Action.finishResizeCast]⟩

/-- Scoped helper _error_out_instance_on_exception of manager.py: any
exception from the body rolls back the pending quota reservations (a
no-op when none are pending) and sets vm_state to ERROR before the
exception is re-raised. -/
def error_out_instance_on_exception (reservations : Bool) (uuid : Nat)
    (body : StepResult) : StepResult :=
  match body.raised with
  | none => body
  | some e =>
    ⟨some e, { body.inst with vm_state := VmState.error },
      body.trace ++ (if reservations then [Action.quotaRollback] else []) ++
        [Action.setInstanceError uuid]⟩

/-- resize_instance entry point: the body under the error-out context and
the reverts_task_state decorator. -/
def resize_instance (env : ResizeEnv) (inst : Instance) (destHost : Nat) : StepResult :=
  reverts_task_state
    (fun i => error_out_instance_on_exception env.reservations i.uuid
      (resize_instance_body env i destHost)) inst

/-- Deletion loop of _rotate_backups: n times, pop the image at the end of
the newest-first list and delete it.  The source would fault on an empty
list; the guard in rotate_backups keeps n within the list length. -/
def rotate_pop_loop : List BackupImage → Nat → List Action
  | _, 0 => []
  | imgs, n + 1 =>
    match imgs.getLast? with
    | none => []
    | some img => Action.imageDelete img.id :: rotate_pop_loop imgs.dropLast n

/-- _rotate_backups of manager.py: images arrive sorted newest-first; when
their number exceeds the rotation limit, the excess images are popped off
the oldest end and deleted, one by one. -/
def rotate_backups (images : List BackupImage) (rotation : Nat) : List Action :=
  if images.length > rotation then
    rotate_pop_loop images (images.length - rotation)
  else []

/-- timeutils.is_older_than over natural-number timestamps: the moment t
lies more than window seconds before now. -/
def is_older_than (now t window : Nat) : Bool := window < now - t

/-- _reclaim_queued_deletes of manager.py: disabled for a non-positive
interval; otherwise every instance of this host that is SOFT_DELETED and
either has no deleted_at timestamp or is older than the interval is
hard-deleted.  Returns the uuids handed to _delete_instance. -/
def reclaim_queued_deletes (interval : Int) (now : Nat) (instances : List Instance) :
    List Nat :=
  if interval ≤ 0 then []
  else
    instances.filterMap (fun i =>
      let old_enough := match i.deleted_at with
        | none => true
        | some t => is_older_than now t interval.toNat
      if i.vm_state = VmState.softDeleted ∧ old_enough = true then some i.uuid
      else none)

/-- The deletion loop over a newest-first list pops and deletes exactly
the last n images, oldest first. -/
lemma rotate_pop_loop_eq (n : Nat) :
    ∀ imgs : List BackupImage, n ≤ imgs.length →
      rotate_pop_loop imgs n =
        ((imgs.drop (imgs.length - n)).reverse).map (fun b => Action.imageDelete b.id) := by
  induction n with
  | zero =>
    intro imgs _
    simp [rotate_pop_loop]
  | succ n ih =>
    intro imgs h
    have hne : imgs ≠ [] := List.ne_nil_of_length_pos (by omega)
    have hlast : imgs.getLast? = some (imgs.getLast hne) := List.getLast?_eq_getLast imgs hne
    have hlen : imgs.dropLast.length = imgs.length - 1 := List.length_dropLast imgs
    have hrec := ih imgs.dropLast (by omega)
    have hsplit : imgs.dropLast ++ [imgs.getLast hne] = imgs := List.dropLast_append_getLast hne
    have hidx : imgs.length - (n + 1) = imgs.dropLast.length - n := by omega
    have hdrop : imgs.drop (imgs.length - (n + 1)) =
        imgs.dropLast.drop (imgs.dropLast.length - n) ++ [imgs.getLast hne] := by
      rw [hidx, ← List.drop_append_of_le_length (by omega), hsplit]
    simp only [rotate_pop_loop, hlast, hrec, hdrop]
    simp

/-- C8: with N existing backups of the given type listed newest-first and
a rotation limit R, the rotation deletes exactly N minus R images when
N exceeds R, and they are the N minus R oldest ones, popped from the
oldest end of the list; when N is at most R nothing is deleted. -/
theorem rotate_backups_deletes_oldest (images : List BackupImage) (rotation : Nat) :
    (rotation < images.length →
      rotate_backups images rotation =
        ((images.drop rotation).reverse).map (fun b => Action.imageDelete b.id) ∧
      (rotate_backups images rotation).length = images.length - rotation) ∧
    (images.length ≤ rotation → rotate_backups images rotation = []) := by
  constructor
  · intro h
    have he : rotate_backups images rotation =
        ((images.drop rotation).reverse).map (fun b => Action.imageDelete b.id) := by
      unfold rotate_backups
      rw [if_pos h, rotate_pop_loop_eq (images.length - rotation) images (by omega)]
      have hidx : images.length - (images.length - rotation) = rotation := by omega
      rw [hidx]
    refine ⟨he, ?_⟩
    rw [he]
    simp
  · intro h
    unfold rotate_backups
    rw [if_neg (by omega)]

/-- Witness for C8 at a concrete three-element backup list and limit 1. -/
theorem rotate_backups_deletes_oldest_witness :
    rotate_backups [⟨1, 10⟩, ⟨2, 9⟩, ⟨3, 8⟩] 1 =
      ((([⟨1, 10⟩, ⟨2, 9⟩, ⟨3, 8⟩] : List BackupImage).drop 1).reverse).map
        (fun b => Action.imageDelete b.id) :=
  ((rotate_backups_deletes_oldest [⟨1, 10⟩, ⟨2, 9⟩, ⟨3, 8⟩] 1).1 (by decide)).1

/-- C10: with a positive reclaim interval, the reclamation sweep
hard-deletes every instance of the host whose vm_state is SOFT_DELETED
and whose deleted_at timestamp is null, at every current time: the
missing timestamp counts as already old enough. -/
theorem reclaim_null_deleted_at (interval : Int) (now : Nat)
    (instances : List Instance) (i : Instance)
    (hpos : 0 < interval) (hmem : i ∈ instances)
    (hsoft : i.vm_state = VmState.softDeleted) (hts : i.deleted_at = none) :
    i.uuid ∈ reclaim_queued_deletes interval now instances := by
  unfold reclaim_queued_deletes
  rw [if_neg (by omega)]
  refine List.mem_filterMap.mpr ⟨i, hmem, ?_⟩
  simp [hsoft, hts]

/-- Witness for C10 at a concrete soft-deleted instance with no
deleted_at timestamp. -/
theorem reclaim_null_deleted_at_witness :
    7 ∈ reclaim_queued_deletes 1 0
      [⟨7, VmState.softDeleted, none, PowerState.shutdown, 1, none⟩] :=
  reclaim_null_deleted_at 1 0 _
    ⟨7, VmState.softDeleted, none, PowerState.shutdown, 1, none⟩
    (by decide) (by simp) rfl rfl

/-- C2: the power-state reconciliation decision table for an instance
that is not skipped (host matches, no pending task): ACTIVE with observed
SHUTDOWN, CRASHED or SUSPENDED invokes the stop workflow exactly once;
ACTIVE with observed PAUSED or NOSTATE takes no corrective action;
STOPPED with anything but NOSTATE, SHUTDOWN, CRASHED invokes the stop
workflow; and the transient vm_states take no action at all. -/
theorem sync_power_state_decision_table (selfHost : Nat) (u : Instance) (p : PowerState)
    (hhost : u.host = selfHost) (htask : u.task_state = none) :
    ((u.vm_state = VmState.active ∧
        (p = PowerState.shutdown ∨ p = PowerState.crashed ∨ p = PowerState.suspended)) →
      (sync_instance_power_state selfHost u p).count (Action.computeStop u.uuid) = 1) ∧
    ((u.vm_state = VmState.active ∧ (p = PowerState.paused ∨ p = PowerState.nostate)) →
      (sync_instance_power_state selfHost u p).count (Action.computeStop u.uuid) = 0) ∧
    ((u.vm_state = VmState.stopped ∧ p ≠ PowerState.nostate ∧ p ≠ PowerState.shutdown ∧
        p ≠ PowerState.crashed) →
      (sync_instance_power_state selfHost u p).count (Action.computeStop u.uuid) = 1) ∧
    ((u.vm_state = VmState.building ∨ u.vm_state = VmState.rescued ∨
        u.vm_state = VmState.resized ∨ u.vm_state = VmState.suspended ∨
        u.vm_state = VmState.paused ∨ u.vm_state = VmState.error) →
      power_state_decision u.uuid u.vm_state p = []) := by
  have hw : ∀ (c : Prop) [Decidable c] (q : PowerState),
      List.count (Action.computeStop u.uuid)
        (if c then [] else [Action.writePowerState u.uuid q]) = 0 := by
    intro c hc q
    by_cases h : c <;> simp [h, List.count_cons]
  refine ⟨?_, ?_, ?_, ?_⟩
  · rintro ⟨hv, hp⟩
    rcases hp with hp | hp | hp <;> subst hp <;>
      simp [sync_instance_power_state, power_state_decision, hhost, htask, hv, hw,
        List.count_cons]
  · rintro ⟨hv, hp⟩
    rcases hp with hp | hp <;> subst hp <;>
      simp [sync_instance_power_state, power_state_decision, hhost, htask, hv, hw,
        List.count_cons]
  · rintro ⟨hv, h1, h2, h3⟩
    cases p <;>
      first
        | exact absurd rfl h1
        | exact absurd rfl h2
        | exact absurd rfl h3
        | simp [sync_instance_power_state, power_state_decision, hhost, htask, hv, hw,
            List.count_cons]
  · intro hv
    rcases hv with hv | hv | hv | hv | hv | hv <;> simp [power_state_decision, hv]

/-- Witness for C2: an ACTIVE instance observed SHUTDOWN is stopped
exactly once; a PAUSED instance observed RUNNING gets no decision. -/
theorem sync_power_state_decision_table_witness :
    (sync_instance_power_state 3
        ⟨11, VmState.active, none, PowerState.running, 3, none⟩
        PowerState.shutdown).count (Action.computeStop 11) = 1 ∧
    power_state_decision 12 VmState.paused PowerState.running = [] :=
  ⟨(sync_power_state_decision_table 3
      ⟨11, VmState.active, none, PowerState.running, 3, none⟩
      PowerState.shutdown rfl rfl).1 ⟨rfl, Or.inl rfl⟩,
    (sync_power_state_decision_table 3
      ⟨12, VmState.paused, none, PowerState.running, 3, none⟩
      PowerState.running rfl rfl).2.2.2 (Or.inr (Or.inr (Or.inr (Or.inr (Or.inl rfl)))))⟩

/-- Any failure of the delete body leaves the task state of the record
exactly as it was when terminate_instance started. -/
lemma terminate_failure_keeps_task_state (env : TermEnv) (inst : Instance) (e : Exc)
    (h : (terminate_delete_result env inst).raised = some e) :
    (terminate_instance env inst).inst.task_state = inst.task_state := by
  obtain ⟨ad, eb, de, dx, vt, cf⟩ := env
  simp only [terminate_instance, terminate_delete_result, delete_instance,
    shutdown_instance] at h ⊢
  cases de with
  | some d => cases d <;> simp_all
  | none =>
    cases dx with
    | some d => cases d <;> simp_all
    | none =>
      cases vt with
      | none =>
        cases ad
        · simp_all
        · have he : Exc.instanceNotFound = e := by simpa using h
          subst he
          cases cf <;> simp
      | some v =>
        cases v <;> cases ad <;> (try simp_all) <;> (subst h; cases cf <;> simp)

/-- C1: the reverts_task_state decorator guarantees that a workflow entry
point failing with anything other than an unexpected-task-state
precondition failure has its task_state set to null before the exception
propagates; an UnexpectedTaskStateError is re-raised with the result of
the body untouched; and the delete workflow, which is not decorated,
never resets task_state on a mid-delete failure. -/
theorem task_state_revert_policy :
    (∀ (f : Instance → StepResult) (inst : Instance) (e : Exc),
        (f inst).raised = some e → e.isUnexpectedTaskState = false →
        (reverts_task_state f inst).inst.task_state = none ∧
        (reverts_task_state f inst).raised = some e) ∧
    (∀ (f : Instance → StepResult) (inst : Instance) (a : Option TaskState),
        (f inst).raised = some (Exc.unexpectedTaskState a) →
        reverts_task_state f inst = f inst) ∧
    (∀ (env : TermEnv) (inst : Instance) (e : Exc),
        (terminate_delete_result env inst).raised = some e →
        (terminate_instance env inst).inst.task_state = inst.task_state) := by
  refine ⟨?_, ?_, fun env inst e h => terminate_failure_keeps_task_state env inst e h⟩
  · intro f inst e hr huts
    simp only [reverts_task_state, hr]
    cases e <;> simp_all [Exc.isUnexpectedTaskState]
  · intro f inst a hr
    simp only [reverts_task_state, hr]

/-- Witness for C1: a hard failure has its task state cleared by the
decorator, while a failing delete leaves the DELETING task state in
place. -/
theorem task_state_revert_policy_witness :
    (reverts_task_state (fun i => ⟨some (Exc.other 0), i, []⟩)
        ⟨1, VmState.active, some TaskState.spawning, PowerState.running, 0, none⟩).inst.task_state
      = none ∧
    (terminate_instance ⟨false, [], some (Exc.other 1), none, none, false⟩
        ⟨2, VmState.active, some TaskState.deleting, PowerState.running, 0, none⟩).inst.task_state
      = some TaskState.deleting :=
  ⟨(task_state_revert_policy.1 _
      ⟨1, VmState.active, some TaskState.spawning, PowerState.running, 0, none⟩
      (Exc.other 0) rfl rfl).1,
    task_state_revert_policy.2.2 ⟨false, [], some (Exc.other 1), none, none, false⟩
      ⟨2, VmState.active, some TaskState.deleting, PowerState.running, 0, none⟩
      (Exc.other 1) (by decide)⟩

/-- C7: any exception inside the resize workflow body rolls the pending
quota reservations back and sets vm_state to ERROR before the same
exception is re-raised to the caller. -/
theorem resize_error_out_rollback (env : ResizeEnv) (inst : Instance) (destHost : Nat)
    (e : Exc) (hfail : (resize_instance_body env inst destHost).raised = some e)
    (hres : env.reservations = true) :
    (resize_instance env inst destHost).raised = some e ∧
    (resize_instance env inst destHost).inst.vm_state = VmState.error ∧
    Action.quotaRollback ∈ (resize_instance env inst destHost).trace := by
  simp only [resize_instance, reverts_task_state, error_out_instance_on_exception, hfail, hres]
  cases e <;> simp

/-- Witness for C7: a disk-migration failure with pending reservations
ends with the same exception, ERROR state and a quota rollback. -/
theorem resize_error_out_rollback_witness :
    (resize_instance ⟨true, none, none, none, some (Exc.other 5), none, none⟩
        ⟨3, VmState.active, some TaskState.resizePrep, PowerState.running, 0, none⟩
        9).raised = some (Exc.other 5) ∧
    (resize_instance ⟨true, none, none, none, some (Exc.other 5), none, none⟩
        ⟨3, VmState.active, some TaskState.resizePrep, PowerState.running, 0, none⟩
        9).inst.vm_state = VmState.error ∧
    Action.quotaRollback ∈
      (resize_instance ⟨true, none, none, none, some (Exc.other 5), none, none⟩
        ⟨3, VmState.active, some TaskState.resizePrep, PowerState.running, 0, none⟩
        9).trace :=
  resize_error_out_rollback ⟨true, none, none, none, some (Exc.other 5), none, none⟩
    ⟨3, VmState.active, some TaskState.resizePrep, PowerState.running, 0, none⟩
    9 (Exc.other 5) (by decide) rfl

/-- C9: terminating an instance whose record is already gone from the
store completes without raising (the not-found condition is caught and
logged) and deletes no volume. -/
theorem terminate_already_deleted_idempotent (env : TermEnv) (inst : Instance)
    (had : env.alreadyDeleted = true) (hde : env.deallocExc = none)
    (hdx : env.destroyExc = none) (hvt : env.volTermExc = none) :
    (terminate_instance env inst).raised = none ∧
    (∀ v, Action.volumeDelete v ∉ (terminate_instance env inst).trace) ∧
    Action.logWarn ∈ (terminate_instance env inst).trace := by
  obtain ⟨ad, eb, de, dx, vt, cf⟩ := env
  simp only at had hde hdx hvt
  subst had hde hdx hvt
  cases cf <;>
    simp [terminate_instance, terminate_delete_result, delete_instance,
      shutdown_instance, cleanup_volumes]

/-- Witness for C9 on a concrete environment with pending volume
mappings from the first delete. -/
theorem terminate_already_deleted_idempotent_witness :
    (terminate_instance ⟨true, [⟨1, some 4, true⟩], none, none, none, false⟩
        ⟨5, VmState.deleted, none, PowerState.nostate, 0, some 3⟩).raised = none ∧
    (∀ v, Action.volumeDelete v ∉
      (terminate_instance ⟨true, [⟨1, some 4, true⟩], none, none, none, false⟩
        ⟨5, VmState.deleted, none, PowerState.nostate, 0, some 3⟩).trace) ∧
    Action.logWarn ∈
      (terminate_instance ⟨true, [⟨1, some 4, true⟩], none, none, none, false⟩
        ⟨5, VmState.deleted, none, PowerState.nostate, 0, some 3⟩).trace :=
  terminate_already_deleted_idempotent ⟨true, [⟨1, some 4, true⟩], none, none, none, false⟩
    ⟨5, VmState.deleted, none, PowerState.nostate, 0, some 3⟩ rfl rfl rfl rfl

/-- The reverts_task_state decorator never changes which exception
propagates. -/
lemma reverts_task_state_raised (f : Instance → StepResult) (i : Instance) :
    (reverts_task_state f i).raised = (f i).raised := by
  simp only [reverts_task_state]
  rcases h : (f i).raised with _ | e
  · simp [h]
  · cases e <;> simp [h]

/-- The reverts_task_state decorator never changes the action trace. -/
lemma reverts_task_state_trace (f : Instance → StepResult) (i : Instance) :
    (reverts_task_state f i).trace = (f i).trace := by
  simp only [reverts_task_state]
  rcases h : (f i).raised with _ | e
  · simp [h]
  · cases e <;> simp [h]

/-- The reverts_task_state decorator never changes the vm_state. -/
lemma reverts_task_state_vm_state (f : Instance → StepResult) (i : Instance) :
    (reverts_task_state f i).inst.vm_state = (f i).inst.vm_state := by
  simp only [reverts_task_state]
  rcases h : (f i).raised with _ | e
  · simp [h]
  · cases e <;> simp [h]

/-- The claimed region raises independently of the instance record. -/
lemma run_instance_claimed_raised (env : BuildEnv) (i : Instance) :
    (run_instance_claimed env i).raised = claimed_region_exc env := by
  obtain ⟨ce, ci, sb, ok, ae, be, pe, sp, de, fr, rs, su, sx⟩ := env
  cases ok <;> cases ae <;> cases be <;> cases pe <;> cases sp <;>
    simp [run_instance_claimed, claimed_region_exc]

/-- On any failure of the claimed region a record that entered it in the
BUILDING state is left in the BUILDING state. -/
lemma run_instance_claimed_vm_of_raised (env : BuildEnv) (i : Instance) (e : Exc)
    (h : (run_instance_claimed env i).raised = some e)
    (hb : i.vm_state = VmState.building) :
    (run_instance_claimed env i).inst.vm_state = VmState.building := by
  obtain ⟨ce, ci, sb, ok, ae, be, pe, sp, de, fr, rs, su, sx⟩ := env
  cases ok <;> cases ae <;> cases be <;> cases pe <;> cases sp <;>
    simp_all [run_instance_claimed]

/-- The claimed region never deallocates the network. -/
lemma run_instance_claimed_no_dealloc (env : BuildEnv) (i : Instance) :
    Action.deallocateNetwork ∉ (run_instance_claimed env i).trace := by
  obtain ⟨ce, ci, sb, ok, ae, be, pe, sp, de, fr, rs, su, sx⟩ := env
  cases ok <;> cases ae <;> cases be <;> cases pe <;> cases sp <;>
    simp [run_instance_claimed]

/-- The claimed region never calls the scheduler. -/
lemma run_instance_claimed_no_scheduler (env : BuildEnv) (i : Instance) (n : Nat)
    (rec : Option Exc) :
    Action.schedulerRunInstance n rec ∉ (run_instance_claimed env i).trace := by
  obtain ⟨ce, ci, sb, ok, ae, be, pe, sp, de, fr, rs, su, sx⟩ := env
  cases ok <;> cases ae <;> cases be <;> cases pe <;> cases sp <;>
    simp [run_instance_claimed]

/-- When the network deallocation succeeds but the build is not
re-submitted (no retry metadata, empty request spec, a failing task-state
update, or a failing scheduler call), _reschedule_or_reraise re-raises the
original exception, having recorded the instance fault. -/
lemma reschedule_or_reraise_not_rescheduled (env : BuildEnv) (inst : Instance) (e : Exc)
    (hdealloc : env.deallocExc = none)
    (hnores : env.filterRetry = none ∨ env.requestSpec = false ∨
      env.schedUpdateExc.isSome = true ∨ env.schedulerExc.isSome = true) :
    (reschedule_or_reraise env inst e).raised = some e ∧
    Action.addInstanceFault e ∈ (reschedule_or_reraise env inst e).trace := by
  obtain ⟨ce, ci, sb, ok, ae, be, pe, sp, de, fr, rs, su, sx⟩ := env
  simp only at hdealloc hnores
  subst hdealloc
  cases fr <;> cases rs <;> cases su <;> cases sx <;>
    simp_all [reschedule_or_reraise, reschedule_run_instance]

/-- When the network deallocation and the task-state reset succeed and
retry metadata plus a non-empty request spec are present, the build is
re-submitted to the scheduler: the call carries the retry counter
unchanged and the original failure recorded. -/
lemma reschedule_or_reraise_scheduler_mem (env : BuildEnv) (inst : Instance) (e : Exc)
    (retry : RetryInfo) (hdealloc : env.deallocExc = none)
    (hfr : env.filterRetry = some retry) (hrs : env.requestSpec = true)
    (hsu : env.schedUpdateExc = none) :
    Action.schedulerRunInstance retry.num_attempts (some e) ∈
      (reschedule_or_reraise env inst e).trace := by
  obtain ⟨ce, ci, sb, ok, ae, be, pe, sp, de, fr, rs, su, sx⟩ := env
  simp only at hdealloc hfr hrs hsu
  subst hdealloc hfr hrs hsu
  cases sx <;> simp [reschedule_or_reraise, reschedule_run_instance]

/-- Without retry metadata or without a request spec, no scheduler call
is ever made. -/
lemma reschedule_or_reraise_no_scheduler (env : BuildEnv) (inst : Instance) (e : Exc)
    (h : env.filterRetry = none ∨ env.requestSpec = false) :
    ∀ n rec, Action.schedulerRunInstance n rec ∉ (reschedule_or_reraise env inst e).trace := by
  obtain ⟨ce, ci, sb, ok, ae, be, pe, sp, de, fr, rs, su, sx⟩ := env
  intro n rec
  cases de <;> cases fr <;> cases rs <;> cases su <;> cases sx <;>
    simp_all [reschedule_or_reraise, reschedule_run_instance]

/-- The reschedule path either raises some exception or ends quietly with
the build re-submitted to the scheduler. -/
lemma reschedule_or_reraise_outcome (env : BuildEnv) (inst : Instance) (e : Exc) :
    (∃ x, (reschedule_or_reraise env inst e).raised = some x) ∨
    ((reschedule_or_reraise env inst e).raised = none ∧
      ∃ n rec, Action.schedulerRunInstance n rec ∈ (reschedule_or_reraise env inst e).trace) := by
  obtain ⟨ce, ci, sb, ok, ae, be, pe, sp, de, fr, rs, su, sx⟩ := env
  cases de <;> cases fr <;> cases rs <;> cases su <;> cases sx <;>
    simp [reschedule_or_reraise, reschedule_run_instance]

/-- The reschedule path never allocates a network. -/
lemma reschedule_or_reraise_no_alloc (env : BuildEnv) (inst : Instance) (e : Exc) :
    Action.allocateNetwork ∉ (reschedule_or_reraise env inst e).trace := by
  obtain ⟨ce, ci, sb, ok, ae, be, pe, sp, de, fr, rs, su, sx⟩ := env
  cases de <;> cases fr <;> cases rs <;> cases su <;> cases sx <;>
    simp [reschedule_or_reraise, reschedule_run_instance]

/-- Reduction of _run_instance when the pre-claim steps succeed and the
claimed region fails with a hard exception: the reschedule path runs, and
any exception it leaves sets the instance to ERROR on the way out. -/
lemma run_instance_inner_hard_eq (env : BuildEnv) (inst : Instance) (e : Exc)
    (h1 : env.checkExistsExc = none) (h2 : env.checkImageExc = none)
    (h3 : env.startBuildingExc = none)
    (hfail : claimed_region_exc env = some e)
    (hhard : e.isUnexpectedTaskState = false) (hnf : e ≠ Exc.instanceNotFound) :
    run_instance_inner env inst =
      (let r := run_instance_claimed env
        { inst with vm_state := VmState.building, task_state := none }
       let rr := reschedule_or_reraise env r.inst e
       match rr.raised with
       | none => ⟨rr.raised, rr.inst, r.trace ++ rr.trace⟩
       | some x => ⟨some x, { rr.inst with vm_state := VmState.error },
           (r.trace ++ rr.trace) ++ [Action.setInstanceError rr.inst.uuid]⟩) := by
  simp only [run_instance_inner, h1, h2, h3]
  rw [run_instance_claimed_raised, hfail]
  cases e
  case unexpectedTaskState a => simp [Exc.isUnexpectedTaskState] at hhard
  case instanceNotFound => exact absurd rfl hnf
  all_goals rfl

/-- Reduction of _run_instance when the claimed region fails with an
unexpected-task-state race whose actual state is deleting: the exception
is swallowed and the claimed-region result passes through. -/
lemma run_instance_inner_uts_deleting_eq (env : BuildEnv) (inst : Instance)
    (h1 : env.checkExistsExc = none) (h2 : env.checkImageExc = none)
    (h3 : env.startBuildingExc = none)
    (hfail : claimed_region_exc env =
      some (Exc.unexpectedTaskState (some TaskState.deleting))) :
    run_instance_inner env inst =
      ⟨none,
        (run_instance_claimed env
          { inst with vm_state := VmState.building, task_state := none }).inst,
        (run_instance_claimed env
          { inst with vm_state := VmState.building, task_state := none }).trace⟩ := by
  simp only [run_instance_inner, h1, h2, h3]
  rw [run_instance_claimed_raised, hfail]
  simp

/-- Reduction of _run_instance when the claimed region observes the
instance gone: the network is deallocated and InstanceNotFound is
re-raised through the error-out handler. -/
lemma run_instance_inner_notfound_eq (env : BuildEnv) (inst : Instance)
    (h1 : env.checkExistsExc = none) (h2 : env.checkImageExc = none)
    (h3 : env.startBuildingExc = none) (hde : env.deallocExc = none)
    (hfail : claimed_region_exc env = some Exc.instanceNotFound) :
    run_instance_inner env inst =
      ⟨some Exc.instanceNotFound,
        { (run_instance_claimed env
            { inst with vm_state := VmState.building, task_state := none }).inst with
          vm_state := VmState.error },
        ((run_instance_claimed env
            { inst with vm_state := VmState.building, task_state := none }).trace ++
          [Action.deallocateNetwork]) ++
          [Action.setInstanceError (run_instance_claimed env
            { inst with vm_state := VmState.building, task_state := none }).inst.uuid]⟩ := by
  simp only [run_instance_inner, h1, h2, h3, hde]
  rw [run_instance_claimed_raised, hfail]

/-- With a failed resource claim no network allocation ever appears in
the build trace. -/
lemma run_instance_no_alloc_of_claim_failed (env : BuildEnv) (inst : Instance)
    (hok : env.claimOk = false) :
    Action.allocateNetwork ∉ (run_instance env inst).trace := by
  unfold run_instance
  rw [reverts_task_state_trace]
  have hclaimed : run_instance_claimed env
      { inst with vm_state := VmState.building, task_state := none } =
      ⟨some Exc.insufficientResources,
        { inst with vm_state := VmState.building, task_state := none }, []⟩ := by
    simp [run_instance_claimed, hok]
  rcases hce : env.checkExistsExc with _ | x <;>
    rcases hci : env.checkImageExc with _ | y <;>
      rcases hsb : env.startBuildingExc with _ | z <;>
        simp only [run_instance_inner, hce, hci, hsb] <;>
        first
          | (simp; done)
          | (rw [hclaimed]
             rcases hrr : (reschedule_or_reraise env
               { inst with vm_state := VmState.building, task_state := none }
               Exc.insufficientResources).raised with _ | w <;>
               simp [hrr, reschedule_or_reraise_no_alloc])

/-- C3: a build failure in the claimed region that is not rescheduled (no
retry metadata, no request spec, or the reschedule attempt itself
raising) marks the instance ERROR, and the exception propagating to the
caller of run_instance is the original build exception, not the
reschedule failure; the original failure, traceback included, is
recorded in the instance fault before the re-raise. -/
theorem build_failure_original_error_propagates (env : BuildEnv) (inst : Instance) (e : Exc)
    (h1 : env.checkExistsExc = none) (h2 : env.checkImageExc = none)
    (h3 : env.startBuildingExc = none)
    (hfail : claimed_region_exc env = some e)
    (hhard : e.isUnexpectedTaskState = false) (hnf : e ≠ Exc.instanceNotFound)
    (hdealloc : env.deallocExc = none)
    (hnores : env.filterRetry = none ∨ env.requestSpec = false ∨
      env.schedUpdateExc.isSome = true ∨ env.schedulerExc.isSome = true) :
    (run_instance env inst).raised = some e ∧
    (run_instance env inst).inst.vm_state = VmState.error ∧
    Action.addInstanceFault e ∈ (run_instance env inst).trace := by
  unfold run_instance
  rw [reverts_task_state_raised, reverts_task_state_vm_state, reverts_task_state_trace,
    run_instance_inner_hard_eq env inst e h1 h2 h3 hfail hhard hnf]
  dsimp only
  have hrr := reschedule_or_reraise_not_rescheduled env
    (run_instance_claimed env
      { inst with vm_state := VmState.building, task_state := none }).inst
    e hdealloc hnores
  rw [hrr.1]
  exact ⟨rfl, rfl, by simp [hrr.2]⟩

/-- Witness for C3: a hard spawn failure with no retry metadata ends in
ERROR with the original exception propagating and the fault recorded. -/
theorem build_failure_original_error_propagates_witness :
    (run_instance
        ⟨none, none, none, true, none, none, none, some (Exc.other 7), none, none,
          false, none, none⟩
        ⟨21, VmState.building, some TaskState.scheduling, PowerState.nostate, 0,
          none⟩).raised = some (Exc.other 7) ∧
    (run_instance
        ⟨none, none, none, true, none, none, none, some (Exc.other 7), none, none,
          false, none, none⟩
        ⟨21, VmState.building, some TaskState.scheduling, PowerState.nostate, 0,
          none⟩).inst.vm_state = VmState.error ∧
    Action.addInstanceFault (Exc.other 7) ∈
      (run_instance
        ⟨none, none, none, true, none, none, none, some (Exc.other 7), none, none,
          false, none, none⟩
        ⟨21, VmState.building, some TaskState.scheduling, PowerState.nostate, 0,
          none⟩).trace :=
  build_failure_original_error_propagates
    ⟨none, none, none, true, none, none, none, some (Exc.other 7), none, none,
      false, none, none⟩
    ⟨21, VmState.building, some TaskState.scheduling, PowerState.nostate, 0, none⟩
    (Exc.other 7) rfl rfl rfl (by decide) rfl (by decide) rfl (Or.inl rfl)

/-- C4 (amended): for a build failing with a hard (non-race) exception
inside the claimed region, with the network deallocation and the
task-state reset succeeding, the request is re-submitted to the scheduler
iff the original request carried retry metadata and a non-empty request
specification; when re-submitted, the original failure is recorded in the
retry metadata before the scheduler call and the retry counter is passed
through unchanged (the increment is the job of the scheduler side, not of
this code). -/
theorem reschedule_conditions (env : BuildEnv) (inst : Instance) (e : Exc)
    (h1 : env.checkExistsExc = none) (h2 : env.checkImageExc = none)
    (h3 : env.startBuildingExc = none)
    (hfail : claimed_region_exc env = some e)
    (hhard : e.isUnexpectedTaskState = false) (hnf : e ≠ Exc.instanceNotFound)
    (hdealloc : env.deallocExc = none) (hupd : env.schedUpdateExc = none) :
    (∀ retry, env.filterRetry = some retry → env.requestSpec = true →
      Action.schedulerRunInstance retry.num_attempts (some e) ∈
        (run_instance env inst).trace) ∧
    ((env.filterRetry = none ∨ env.requestSpec = false) →
      ∀ n rec, Action.schedulerRunInstance n rec ∉ (run_instance env inst).trace) := by
  unfold run_instance
  rw [reverts_task_state_trace,
    run_instance_inner_hard_eq env inst e h1 h2 h3 hfail hhard hnf]
  dsimp only
  constructor
  · intro retry hfr hrs
    have hm := reschedule_or_reraise_scheduler_mem env
      (run_instance_claimed env
        { inst with vm_state := VmState.building, task_state := none }).inst
      e retry hdealloc hfr hrs hupd
    rcases hrr : (reschedule_or_reraise env
        (run_instance_claimed env
          { inst with vm_state := VmState.building, task_state := none }).inst
        e).raised with _ | x <;>
      simp [hm]
  · intro hno n rec
    have hs := reschedule_or_reraise_no_scheduler env
      (run_instance_claimed env
        { inst with vm_state := VmState.building, task_state := none }).inst
      e hno n rec
    have hc := run_instance_claimed_no_scheduler env
      { inst with vm_state := VmState.building, task_state := none } n rec
    rcases hrr : (reschedule_or_reraise env
        (run_instance_claimed env
          { inst with vm_state := VmState.building, task_state := none }).inst
        e).raised with _ | x <;>
      simp [hs, hc]

/-- Counterexample for C4: a build with retry metadata carrying attempt
counter 1 fails hard and is re-submitted; the scheduler call still
carries counter 1, with the original failure recorded: the retry count is
not incremented before the call, contrary to the claim. -/
theorem reschedule_retry_count_not_incremented_cex :
    (run_instance
        ⟨none, none, none, true, none, none, none, some (Exc.other 7), none,
          some ⟨1, none⟩, true, none, none⟩
        ⟨22, VmState.building, some TaskState.scheduling, PowerState.nostate, 0,
          none⟩).trace.count
        (Action.schedulerRunInstance 1 (some (Exc.other 7))) = 1 ∧
    (run_instance
        ⟨none, none, none, true, none, none, none, some (Exc.other 7), none,
          some ⟨1, none⟩, true, none, none⟩
        ⟨22, VmState.building, some TaskState.scheduling, PowerState.nostate, 0,
          none⟩).trace.count
        (Action.schedulerRunInstance 2 (some (Exc.other 7))) = 0 ∧
    (run_instance
        ⟨none, none, none, true, none, none, none, some (Exc.other 7), none,
          some ⟨1, none⟩, true, none, none⟩
        ⟨22, VmState.building, some TaskState.scheduling, PowerState.nostate, 0,
          none⟩).trace.count
        (Action.schedulerRunInstance 2 none) = 0 := by
  decide

/-- Witness for C4 at a concrete environment with retry metadata and a
request spec present. -/
theorem reschedule_conditions_witness :
    Action.schedulerRunInstance 3 (some (Exc.other 9)) ∈
      (run_instance
        ⟨none, none, none, true, none, none, none, some (Exc.other 9), none,
          some ⟨3, none⟩, true, none, none⟩
        ⟨23, VmState.building, some TaskState.scheduling, PowerState.nostate, 0,
          none⟩).trace :=
  (reschedule_conditions
    ⟨none, none, none, true, none, none, none, some (Exc.other 9), none,
      some ⟨3, none⟩, true, none, none⟩
    ⟨23, VmState.building, some TaskState.scheduling, PowerState.nostate, 0, none⟩
    (Exc.other 9) rfl rfl rfl (by decide) rfl (by decide) rfl rfl).1
    ⟨3, none⟩ rfl rfl

/-- Counterexample for C5: when the spawn step fails with an
unexpected-task-state whose actual state is deleting, the build does
return without raising and without ERROR, but it does not deallocate the
network, contrary to the claim. -/
theorem deleted_mid_spawn_no_dealloc_cex :
    (run_instance
        ⟨none, none, none, true, none, none, none,
          some (Exc.unexpectedTaskState (some TaskState.deleting)), none, none,
          false, none, none⟩
        ⟨24, VmState.building, some TaskState.scheduling, PowerState.nostate, 0,
          none⟩).raised = none ∧
    Action.deallocateNetwork ∉
      (run_instance
        ⟨none, none, none, true, none, none, none,
          some (Exc.unexpectedTaskState (some TaskState.deleting)), none, none,
          false, none, none⟩
        ⟨24, VmState.building, some TaskState.scheduling, PowerState.nostate, 0,
          none⟩).trace ∧
    (run_instance
        ⟨none, none, none, true, none, none, none,
          some (Exc.unexpectedTaskState (some TaskState.deleting)), none, none,
          false, none, none⟩
        ⟨24, VmState.building, some TaskState.scheduling, PowerState.nostate, 0,
          none⟩).inst.vm_state ≠ VmState.error := by
  decide

/-- C5 (amended): when the claimed region fails with an
unexpected-task-state race whose actual state is deleting, the build
returns without raising and without setting the instance to ERROR, but
performs no network deallocation; when it observes the instance gone
(InstanceNotFound), the network is deallocated and InstanceNotFound
propagates to the caller. -/
theorem deleted_mid_spawn_behavior (env : BuildEnv) (inst : Instance)
    (h1 : env.checkExistsExc = none) (h2 : env.checkImageExc = none)
    (h3 : env.startBuildingExc = none) :
    (claimed_region_exc env =
        some (Exc.unexpectedTaskState (some TaskState.deleting)) →
      (run_instance env inst).raised = none ∧
      (run_instance env inst).inst.vm_state ≠ VmState.error ∧
      Action.deallocateNetwork ∉ (run_instance env inst).trace) ∧
    (claimed_region_exc env = some Exc.instanceNotFound → env.deallocExc = none →
      (run_instance env inst).raised = some Exc.instanceNotFound ∧
      Action.deallocateNetwork ∈ (run_instance env inst).trace) := by
  constructor
  · intro hfail
    unfold run_instance
    rw [reverts_task_state_raised, reverts_task_state_vm_state, reverts_task_state_trace,
      run_instance_inner_uts_deleting_eq env inst h1 h2 h3 hfail]
    have hb : (run_instance_claimed env
        { inst with vm_state := VmState.building, task_state := none }).inst.vm_state =
        VmState.building :=
      run_instance_claimed_vm_of_raised env _ _
        (by rw [run_instance_claimed_raised, hfail]) rfl
    refine ⟨rfl, ?_, run_instance_claimed_no_dealloc env _⟩
    rw [hb]
    decide
  · intro hfail hde
    unfold run_instance
    rw [reverts_task_state_raised, reverts_task_state_trace,
      run_instance_inner_notfound_eq env inst h1 h2 h3 hde hfail]
    exact ⟨rfl, by simp⟩

/-- Witness for C5 at a concrete environment where the instance record
disappears during spawn. -/
theorem deleted_mid_spawn_behavior_witness :
    (run_instance
        ⟨none, none, none, true, none, none, none, some Exc.instanceNotFound, none,
          none, false, none, none⟩
        ⟨25, VmState.building, some TaskState.scheduling, PowerState.nostate, 0,
          none⟩).raised = some Exc.instanceNotFound ∧
    Action.deallocateNetwork ∈
      (run_instance
        ⟨none, none, none, true, none, none, none, some Exc.instanceNotFound, none,
          none, false, none, none⟩
        ⟨25, VmState.building, some TaskState.scheduling, PowerState.nostate, 0,
          none⟩).trace :=
  (deleted_mid_spawn_behavior
    ⟨none, none, none, true, none, none, none, some Exc.instanceNotFound, none,
      none, false, none, none⟩
    ⟨25, VmState.building, some TaskState.scheduling, PowerState.nostate, 0, none⟩
    rfl rfl rfl).2 (by decide) rfl

/-- C6: network allocation happens only when the resource claim has
succeeded, and a build whose claim fails performs no network allocation
and ends either with the instance in ERROR or quietly re-submitted to the
scheduler, never partially built. -/
theorem claim_before_network_allocation (env : BuildEnv) (inst : Instance) :
    (Action.allocateNetwork ∈ (run_instance env inst).trace → env.claimOk = true) ∧
    (env.claimOk = false → env.checkExistsExc = none → env.checkImageExc = none →
      env.startBuildingExc = none →
      Action.allocateNetwork ∉ (run_instance env inst).trace ∧
      ((run_instance env inst).inst.vm_state = VmState.error ∨
        ((run_instance env inst).raised = none ∧
          ∃ n rec, Action.schedulerRunInstance n rec ∈ (run_instance env inst).trace))) := by
  constructor
  · intro hmem
    by_contra hok
    exact run_instance_no_alloc_of_claim_failed env inst
      (by revert hok; cases env.claimOk <;> simp) hmem
  · intro hok h1 h2 h3
    have hfail : claimed_region_exc env = some Exc.insufficientResources := by
      simp [claimed_region_exc, hok]
    refine ⟨run_instance_no_alloc_of_claim_failed env inst hok, ?_⟩
    unfold run_instance
    rw [reverts_task_state_raised, reverts_task_state_vm_state, reverts_task_state_trace,
      run_instance_inner_hard_eq env inst Exc.insufficientResources h1 h2 h3 hfail rfl
        (by decide)]
    dsimp only
    rcases reschedule_or_reraise_outcome env
        (run_instance_claimed env
          { inst with vm_state := VmState.building, task_state := none }).inst
        Exc.insufficientResources with ⟨x, hx⟩ | ⟨hnone, n, rec, hmem⟩
    · rw [hx]
      exact Or.inl rfl
    · rw [hnone]
      exact Or.inr ⟨rfl, n, rec, by simp [hmem]⟩

/-- Witness for C6 at a concrete environment with a failing claim and no
retry metadata: the build ends in ERROR with no network allocation. -/
theorem claim_before_network_allocation_witness :
    Action.allocateNetwork ∉
      (run_instance
        ⟨none, none, none, false, none, none, none, none, none, none, false, none,
          none⟩
        ⟨26, VmState.building, some TaskState.scheduling, PowerState.nostate, 0,
          none⟩).trace ∧
    ((run_instance
        ⟨none, none, none, false, none, none, none, none, none, none, false, none,
          none⟩
        ⟨26, VmState.building, some TaskState.scheduling, PowerState.nostate, 0,
          none⟩).inst.vm_state = VmState.error ∨
      ((run_instance
        ⟨none, none, none, false, none, none, none, none, none, none, false, none,
          none⟩
        ⟨26, VmState.building, some TaskState.scheduling, PowerState.nostate, 0,
          none⟩).raised = none ∧
        ∃ n rec, Action.schedulerRunInstance n rec ∈
          (run_instance
            ⟨none, none, none, false, none, none, none, none, none, none, false,
              none, none⟩
            ⟨26, VmState.building, some TaskState.scheduling, PowerState.nostate, 0,
              none⟩).trace)) :=
  (claim_before_network_allocation
    ⟨none, none, none, false, none, none, none, none, none, none, false, none, none⟩
    ⟨26, VmState.building, some TaskState.scheduling, PowerState.nostate, 0, none⟩).2
    rfl rfl rfl rfl

end Nova
